import Mathlib

/-!
Shallow embedding of the task-tracker backend
(`backend/routes/tasks.js`, `backend/routes/auth.js`,
`backend/models/User.js`, the Task schema, and their callers).

Modelling conventions:
* Mongo ObjectIds and user ids are plain `String`s, taken after the
  `param("id").isMongoId()` format check (no claim hinges on malformed ids).
* Times are `Int` milliseconds since the epoch (`Date.now()`, `getTime()`).
* The document store is an association list keyed by id.  Document ids are
  unique in MongoDB, so `deleteOne` / `save`-after-`findById` are modelled as
  removing / replacing every entry with the matched id.
* `req.body` is modelled by `TaskBody`: the six validated fields plus
  `creator`, which is a schema path of the Task model that express-validator
  neither validates nor strips, so `Object.assign(task, req.body)` copies it
  (non-schema junk keys are dropped by mongoose strict mode and are omitted).
* External library verdicts that the repository does not implement itself are
  passed in as function parameters: `isEmailLib` for express-validator's
  `isEmail`, `hash`/`verify` for bcrypt, `fmt` for `Date.toLocaleString`,
  and a `sendOk : Bool` for the SMTP transport outcome.
* Mongoose schema setters (`trim`, `lowercase` on `User.email`; `trim` on
  `name` and `title`) are applied both on save and on query filters, as
  mongoose (v6+) runs setters on query filters by default.
-/

namespace TaskTracker

/-- Task status enumeration (`taskSchema.status`). -/
inductive Status where
  | todo
  | in_progress
  | completed
deriving DecidableEq, Repr

/-- Task priority enumeration (`taskSchema.priority`). -/
inductive Priority where
  | low
  | medium
  | high
deriving DecidableEq, Repr

/-- A stored task document (the Task schema paths used by the routes). -/
structure Task where
  title : String
  description : Option String
  dueDate : Option Int
  status : Status
  priority : Priority
  assignedTo : String
  creator : String
deriving DecidableEq, Repr

/-- A request body for POST /tasks and PUT /tasks/:id.  `none` means the key
is absent from the JSON body.  `creator` is an unvalidated extra key that
`Object.assign` copies onto the document (it is a schema path, so mongoose
persists it). -/
structure TaskBody where
  title : Option String := none
  description : Option String := none
  dueDate : Option Int := none
  status : Option Status := none
  priority : Option Priority := none
  assignedTo : Option String := none
  creator : Option String := none
deriving DecidableEq, Repr

/-- A stored user document (`userSchema`). -/
structure User where
  id : String
  email : String
  passwordHash : String
  name : String
  role : String
deriving DecidableEq, Repr

/-- A pending automatic reminder: the `setTimeout` registration made by the
POST /tasks handler.  `fireAt` is the wall-clock instant the one-shot timer
fires at (`now + msUntil`). -/
structure Reminder where
  fireAt : Int
  email : String
  task : Task
deriving DecidableEq, Repr

/-- The mail message built by `sendDueDateEmail`. -/
structure Email where
  fromAddr : String
  toAddr : String
  subject : String
  text : String
deriving DecidableEq, Repr

/-- HTTP result of a task route. -/
inductive ApiRes where
  | okTask (t : Task)
  | createdTask (t : Task)
  | okMsg (m : String)
  | badRequest
  | forbidden (m : String)
  | notFound (m : String)
  | serverError (m : String)
deriving DecidableEq, Repr

/-- HTTP status code of a task-route result. -/
def ApiRes.code : ApiRes → Nat
  | .okTask _ => 200
  | .createdTask _ => 201
  | .okMsg _ => 200
  | .badRequest => 400
  | .forbidden _ => 403
  | .notFound _ => 404
  | .serverError _ => 500

/-- HTTP result of POST /auth/login. -/
inductive LoginRes where
  | success (id email name role : String)
  | unauthorized (m : String)
  | badRequest
deriving DecidableEq, Repr

/-- HTTP result of POST /auth/register. -/
inductive RegisterRes where
  | created (u : User)
  | error (status : Nat) (m : String)
deriving DecidableEq, Repr

/-- JS `String.prototype.trim` (and the mongoose `trim: true` setter):
strip whitespace from both ends.  Implemented over the character list so
that it evaluates inside the kernel. -/
def trimStr (s : String) : String :=
  ⟨((s.data.dropWhile Char.isWhitespace).reverse.dropWhile
      Char.isWhitespace).reverse⟩

/-- JS `String.prototype.toLowerCase` (and the mongoose `lowercase: true`
setter), implemented over the character list. -/
def lowerStr (s : String) : String :=
  ⟨s.data.map Char.toLower⟩

/-- The stored/query form of an email under the `User.email` schema setters
(`trim`, `lowercase`). -/
def emailKey (s : String) : String :=
  lowerStr (trimStr s)

/-- Split a character list at every occurrence of `c`
(`String.prototype.split` on a single-character separator). -/
def splitOnChar (c : Char) : List Char → List (List Char)
  | [] => [[]]
  | x :: xs =>
    if x = c then [] :: splitOnChar c xs
    else
      match splitOnChar c xs with
      | [] => [[x]]
      | h :: t => (x :: h) :: t

/-- The task document store. -/
abbrev TaskStore := List (String × Task)

/-- `Task.findById`: first document whose id matches. -/
def findTask : TaskStore → String → Option Task
  | [], _ => none
  | (k, t) :: rest, id => if k = id then some t else findTask rest id

/-- `task.save()` on a document obtained from `findById`: replace the stored
document with the mutated one (ids are unique, see module header). -/
def replaceTask : TaskStore → String → Task → TaskStore
  | [], _, _ => []
  | (k, t) :: rest, id, t2 =>
    if k = id then (k, t2) :: replaceTask rest id t2
    else (k, t) :: replaceTask rest id t2

/-- `task.deleteOne()`: remove the stored document with that id. -/
def removeTask : TaskStore → String → TaskStore
  | [], _ => []
  | (k, t) :: rest, id =>
    if k = id then removeTask rest id else (k, t) :: removeTask rest id

/-- `User.findOne({ email })`.  Mongoose applies the schema setters
(`trim`, `lowercase`) to the query filter value. -/
def findUserByEmail : List User → String → Option User
  | [], _ => none
  | u :: rest, e =>
    if u.email = emailKey e then some u else findUserByEmail rest e

/-- `User.findById(id)`. -/
def findUserById : List User → String → Option User
  | [], _ => none
  | u :: rest, id => if u.id = id then some u else findUserById rest id

/-- The handler's own defensive `EMAIL_REGEX = /^[^\s@]+@[^\s@]+\.[^\s@]+$/`:
exactly one `@`; a nonempty whitespace-free local part; a domain part that is
whitespace-free and contains a `.` with at least one character on each side. -/
def emailOk (s : String) : Bool :=
  match splitOnChar '@' s.data with
  | [loc, dom] =>
    (loc != []) &&
    loc.all (fun c => !c.isWhitespace) &&
    dom.all (fun c => !c.isWhitespace) &&
    ((dom.drop 1).dropLast.contains '.')
  | _ => false

/-- `body("name").optional().isString().isLength({ max: 100 })`. -/
def nameOk : Option String → Bool
  | none => true
  | some n => decide (n.length ≤ 100)

/-- The `validateRegistration` express-validator chain: `isEmail` (library
verdict `isEmailLib`), password length at least 6, optional name of at most
100 characters. -/
def validRegistrationB (isEmailLib : String → Bool) (email pw : String)
    (name : Option String) : Bool :=
  isEmailLib email && decide (6 ≤ pw.length) && nameOk name

/-- The `validateLogin` chain: `isEmail` plus a nonempty string password. -/
def validLoginB (isEmailLib : String → Bool) (email pw : String) : Bool :=
  isEmailLib email && (pw != "")

/-- Build the user document saved by the register handler: schema setters
lowercase and trim the email and trim the name; role defaults to `"user"`. -/
def mkUser (newId email passwordHash : String) (name : Option String) : User :=
  { id := newId
    email := emailKey email
    passwordHash := passwordHash
    name := trimStr (name.getD "")
    role := "user" }

/-- POST /auth/register (the deployed `routes/auth.js` variant): validate,
reject a duplicate email, re-check the defensive email regex, hash the
password and save.  The mongoose save-time re-checks (email pattern, name
maxlength, unique index) are subsumed by the preceding checks in this
single-threaded model. -/
def register (isEmailLib : String → Bool) (hash : String → String)
    (newId : String) (us : List User) (email pw : String)
    (name : Option String) : RegisterRes × List User :=
  if validRegistrationB isEmailLib email pw name then
    match findUserByEmail us email with
    | some _ => (.error 400 "Email already registered.", us)
    | none =>
      if emailOk email then
        let u := mkUser newId email (hash pw) name
        (.created u, us ++ [u])
      else (.error 400 "Email failed pattern validation.", us)
  else (.error 400 "validation", us)

/-- POST /auth/login: validate, look the user up by email, compare the
password against the stored bcrypt hash (`verify`).  An unknown email and a
failed comparison produce the same response. -/
def login (isEmailLib : String → Bool) (verify : String → String → Bool)
    (us : List User) (email pw : String) : LoginRes :=
  if validLoginB isEmailLib email pw then
    match findUserByEmail us email with
    | none => .unauthorized "Invalid email or password."
    | some u =>
      if verify pw u.passwordHash then .success u.id u.email u.name u.role
      else .unauthorized "Invalid email or password."
  else .badRequest

/-- The `taskValidation` chain shared by POST /tasks and PUT /tasks/:id:
`title` is required (`isString().trim().notEmpty()` — not `optional()`),
`assignedTo` is optional with length 20..50; the other fields are typed by
the embedding (`status`/`priority` enums, ISO `dueDate`). -/
def taskValidationOk (b : TaskBody) : Bool :=
  (match b.title with
   | some t => trimStr t != ""
   | none => false) &&
  (match b.assignedTo with
   | some a => decide (20 ≤ a.length) && decide (a.length ≤ 50)
   | none => true)

/-- The `trim()` sanitizer of the title validator mutates `req.body.title`. -/
def sanitize (b : TaskBody) : TaskBody :=
  { b with title := b.title.map trimStr }

/-- Mongoose document validation run by `save()`: `title` maxlength 100,
`description` maxlength 1000 (the enum paths are typed away). -/
def saveOk (t : Task) : Bool :=
  decide (t.title.length ≤ 100) &&
  (match t.description with
   | some d => decide (d.length ≤ 1000)
   | none => true)

/-- The task document built by the POST /tasks handler:
`status: status || "todo"`, `priority: priority || "medium"`,
`creator: userId`, `assignedTo: assignedTo || userId`. -/
def buildTask (uid : String) (b : TaskBody) : Task :=
  { title := b.title.getD ""
    description := b.description
    dueDate := b.dueDate
    status := b.status.getD .todo
    priority := b.priority.getD .medium
    assignedTo := b.assignedTo.getD uid
    creator := uid }

/-- `task.assignedTo || userId`: the id whose user record is looked up for
the reminder recipient (JS `||` treats the empty string as falsy). -/
def recipientId (uid : String) (t : Task) : String :=
  if t.assignedTo = "" then uid else t.assignedTo

/-- `sendDueDateEmail(toEmail, task)`: the mail message assembled by the
handler.  `fmt` stands for `Date.toLocaleString`. -/
def sendDueDateEmail (fmt : Int → String) (fromAddr toEmail : String)
    (t : Task) : Email :=
  let due := match t.dueDate with
    | some d => fmt d
    | none => "Invalid Date"
  { fromAddr := fromAddr
    toAddr := toEmail
    subject := "Task Due Soon: " ++ t.title
    text := "Your task \"" ++ t.title ++ "\" is due on " ++ due ++
      ".\n\nDescription: " ++ t.description.getD "" ++
      "\n\nPlease complete it in Task Tracker." }

/-- POST /tasks: validate, build and save the task, then — when a due date
is present, the recipient's user record resolves and has a (truthy) email —
register a one-shot timer `setTimeout(…, msUntil)` with
`msUntil = dueDate − now − 24h`, only when `msUntil > 0`.  The returned list
holds the timers registered by this call. -/
def createTask (users : List User) (S : TaskStore) (now : Int)
    (newId uid : String) (b0 : TaskBody) : ApiRes × TaskStore × List Reminder :=
  if taskValidationOk b0 then
    let b := sanitize b0
    let t := buildTask uid b
    if saveOk t then
      let rems := match t.dueDate with
        | some d =>
          match findUserById users (recipientId uid t) with
          | some u =>
            if u.email = "" then []
            else
              let msUntil := d - now - 24 * 60 * 60 * 1000
              if 0 < msUntil then [⟨now + msUntil, u.email, t⟩] else []
          | none => []
        | none => []
      (.createdTask t, S ++ [(newId, t)], rems)
    else (.serverError "Failed to create task", S, [])
  else (.badRequest, S, [])

/-- Firing of a registered reminder: the `setTimeout` callback runs
`sendDueDateEmail(email, task).catch(console.error)` — one send attempt,
no retry, no touch of the task store whatever the transport outcome. -/
def fireReminder (fmt : Int → String) (fromAddr : String) (S : TaskStore)
    (r : Reminder) (sendOk : Bool) : TaskStore × List (Email × Bool) :=
  (S, [(sendDueDateEmail fmt fromAddr r.email r.task, sendOk)])

/-- GET /tasks/:id: 404 when the id does not resolve, 403 unless the
requester is the creator or the assignee. -/
def getTask (S : TaskStore) (id uid : String) : ApiRes :=
  match findTask S id with
  | none => .notFound "Task not found."
  | some t =>
    if t.creator = uid ∨ t.assignedTo = uid then .okTask t
    else .forbidden "Unauthorized for this task."

/-- `Object.assign(task, req.body)`: every key present in the body
overwrites the document path, including the unvalidated `creator`. -/
def applyAssign (t : Task) (b : TaskBody) : Task :=
  { title := b.title.getD t.title
    description := if b.description.isSome then b.description else t.description
    dueDate := if b.dueDate.isSome then b.dueDate else t.dueDate
    status := b.status.getD t.status
    priority := b.priority.getD t.priority
    assignedTo := b.assignedTo.getD t.assignedTo
    creator := b.creator.getD t.creator }

/-- PUT /tasks/:id: validation middleware first (400), then 404 / 403, then
`Object.assign` merge and `save()` (500 on mongoose validation failure). -/
def updateTask (S : TaskStore) (id uid : String) (b0 : TaskBody) :
    ApiRes × TaskStore :=
  if taskValidationOk b0 then
    match findTask S id with
    | none => (.notFound "Task not found.", S)
    | some t =>
      if t.creator = uid ∨ t.assignedTo = uid then
        let t2 := applyAssign t (sanitize b0)
        if saveOk t2 then (.okTask t2, replaceTask S id t2)
        else (.serverError "Failed to update task", S)
      else (.forbidden "Unauthorized for this task.", S)
  else (.badRequest, S)

/-- DELETE /tasks/:id: 404 when the id does not resolve; only the creator
may delete (`String(task.creator) !== req.user.id` → 403). -/
def deleteTask (S : TaskStore) (id uid : String) : ApiRes × TaskStore :=
  match findTask S id with
  | none => (.notFound "Task not found.", S)
  | some t =>
    if t.creator = uid then (.okMsg "Task deleted.", removeTask S id)
    else (.forbidden "Only creator can delete.", S)

/-- POST /tasks/:id/complete: creator or assignee may toggle;
`status = status === "completed" ? "todo" : "completed"`. -/
def toggleComplete (S : TaskStore) (id uid : String) : ApiRes × TaskStore :=
  match findTask S id with
  | none => (.notFound "Task not found.", S)
  | some t =>
    if t.creator = uid ∨ t.assignedTo = uid then
      let t2 := { t with
        status := if t.status = Status.completed then Status.todo
                  else Status.completed }
      if saveOk t2 then (.okTask t2, replaceTask S id t2)
      else (.serverError "Failed to toggle completion", S)
    else (.forbidden "Unauthorized.", S)

/-- POST /tasks/:id/schedule-email: validate the body email (`emailValid` is
the `isEmail` library verdict), 404 / 403 as usual, then a synchronous send
whose transport outcome `sendOk` decides between 200 and 500.  No branch
writes to the store; the third component is the send attempted, if any. -/
def scheduleEmail (fmt : Int → String) (fromAddr : String) (S : TaskStore)
    (id uid email : String) (emailValid sendOk : Bool) :
    ApiRes × TaskStore × Option Email :=
  if emailValid then
    match findTask S id with
    | none => (.notFound "Task not found.", S, none)
    | some t =>
      if t.creator = uid ∨ t.assignedTo = uid then
        let e := sendDueDateEmail fmt fromAddr email t
        if sendOk then
          (.okMsg "Reminder email scheduled (sent to SMTP server).", S, some e)
        else (.serverError "Failed to send email", S, some e)
      else (.forbidden "Unauthorized.", S, none)
  else (.badRequest, S, none)

/-! ### Concrete fixtures used by witnesses and counterexamples -/

/-- A stored task whose creator and assignee differ. -/
def exTask : Task :=
  { title := "Report", description := some "Quarterly report",
    dueDate := some 86400001, status := .todo, priority := .medium,
    assignedTo := "uA", creator := "uC" }

/-- A one-task store. -/
def exStore : TaskStore := [("t1", exTask)]

/-- A stored user. -/
def exUser : User :=
  { id := "u1", email := "a@b.com", passwordHash := "hashedpw",
    name := "", role := "user" }

/-- A one-user store. -/
def exUsers : List User := [exUser]

/-- A creation body with a due date just over 24h after time 0. -/
def exCreateBody : TaskBody := { title := some "T", dueDate := some 86400001 }

/-- A second stored user, to serve as an explicit assignee. -/
def exAssignee : User :=
  { id := "bbbbbbbbbbbbbbbbbbbbbbbb", email := "assignee@tt.com",
    passwordHash := "h2", name := "", role := "user" }

/-- A two-user store: the creator and the assignee. -/
def exUsersTwo : List User := [exUser, exAssignee]

/-- A creation body with a due date just over 24h after time 0 and an
explicit assignee distinct from the creator. -/
def exCreateBodyAssigned : TaskBody :=
  { title := some "T", dueDate := some 86400001,
    assignedTo := some "bbbbbbbbbbbbbbbbbbbbbbbb" }

/-- A stored task in state `in_progress`. -/
def taskInProgress : Task :=
  { title := "T", description := none, dueDate := none,
    status := .in_progress, priority := .medium,
    assignedTo := "u1", creator := "u1" }

/-- A one-task store holding `taskInProgress`. -/
def storeInProgress : TaskStore := [("t1", taskInProgress)]

/-- A stored task with distinct 24-hex creator and assignee ids. -/
def taskTwoParties : Task :=
  { title := "Report", description := none, dueDate := none,
    status := .todo, priority := .medium,
    assignedTo := "aaaaaaaaaaaaaaaaaaaaaaab",
    creator := "aaaaaaaaaaaaaaaaaaaaaaaa" }

/-- A one-task store holding `taskTwoParties`. -/
def storeTwoParties : TaskStore := [("t1", taskTwoParties)]

/-- A PUT body that smuggles an unvalidated `creator` key. -/
def bodyWithCreator : TaskBody :=
  { title := some "Report", creator := some "cccccccccccccccccccccccc" }

/-! ### Store lemmas -/

/-- Saving a mutated document found under `id` makes later lookups of `id`
return the mutated document. -/
theorem findTask_replace_self (S : TaskStore) (id : String) (t t2 : Task)
    (h : findTask S id = some t) :
    findTask (replaceTask S id t2) id = some t2 := by
  induction S with
  | nil => simp [findTask] at h
  | cons p rest ih =>
    obtain ⟨k, v⟩ := p
    by_cases hk : k = id
    · simp [findTask, replaceTask, hk]
    · simp only [findTask, replaceTask, hk, if_false, if_neg hk] at h ⊢
      exact ih h

/-- After deletion the id no longer resolves. -/
theorem findTask_remove_self (S : TaskStore) (id : String) :
    findTask (removeTask S id) id = none := by
  induction S with
  | nil => rfl
  | cons p rest ih =>
    obtain ⟨k, v⟩ := p
    by_cases hk : k = id
    · simpa [removeTask, hk] using ih
    · simpa [removeTask, findTask, hk] using ih

/-- Deletion leaves every other id's lookup unchanged. -/
theorem findTask_remove_other (S : TaskStore) (id id2 : String)
    (h : id2 ≠ id) : findTask (removeTask S id) id2 = findTask S id2 := by
  induction S with
  | nil => rfl
  | cons p rest ih =>
    obtain ⟨k, v⟩ := p
    by_cases hk : k = id
    · subst hk
      simp [removeTask, findTask, Ne.symm h, ih]
    · simp [removeTask, findTask, hk, ih]

/-- A user whose stored (lowercased) email equals the query key is found by
`findOne({ email })` on any store that contains it at the end. -/
theorem findUserByEmail_append_mem (us : List User) (u : User) (e : String)
    (h : u.email = emailKey e) :
    ∃ w, findUserByEmail (us ++ [u]) e = some w := by
  induction us with
  | nil => exact ⟨u, by simp [findUserByEmail, h]⟩
  | cons v rest ih =>
    by_cases hv : v.email = emailKey e
    · exact ⟨v, by simp [findUserByEmail, hv]⟩
    · simpa [findUserByEmail, hv] using ih

/-! ### Claim theorems -/

/-- C10: POST /tasks/:id/schedule-email never modifies the task store: for
every requester, body email, validation verdict and transport outcome —
success (200), Forbidden (403), NotFound (404), validation failure (400) or
mail-transport failure (500) — the store after the call equals the store
before it; the operation only attempts an email send. -/
theorem schedule_email_preserves_store (fmt : Int → String)
    (fromAddr : String) (S : TaskStore) (id uid email : String)
    (emailValid sendOk : Bool) :
    (scheduleEmail fmt fromAddr S id uid email emailValid sendOk).2.1 = S := by
  unfold scheduleEmail
  cases emailValid with
  | false => rfl
  | true =>
    cases hf : findTask S id with
    | none => simp [hf]
    | some t =>
      by_cases hca : t.creator = uid ∨ t.assignedTo = uid
      · cases sendOk <;> simp [hf, hca]
      · simp [hf, hca]

/-- C2: DELETE /tasks/:id succeeds (200, task removed, other tasks intact)
iff the requester's id equals the task's creator; any other requester —
including the assignee — gets Forbidden (403) with the store unchanged; an
id that does not resolve gets NotFound (404). -/
theorem delete_requires_creator (S : TaskStore) (id uid : String) :
    (findTask S id = none →
      deleteTask S id uid = (.notFound "Task not found.", S)) ∧
    (∀ t, findTask S id = some t →
      (uid = t.creator →
        deleteTask S id uid = (.okMsg "Task deleted.", removeTask S id) ∧
        findTask (removeTask S id) id = none ∧
        (∀ id2, id2 ≠ id → findTask (removeTask S id) id2 = findTask S id2)) ∧
      (uid ≠ t.creator →
        deleteTask S id uid = (.forbidden "Only creator can delete.", S))) := by
  refine ⟨fun h => by simp [deleteTask, h], fun t ht => ⟨fun hc => ?_, fun hc => ?_⟩⟩
  · exact ⟨by simp [deleteTask, ht, hc.symm],
      findTask_remove_self S id,
      fun id2 h2 => findTask_remove_other S id id2 h2⟩
  · simp only [deleteTask, ht]
    rw [if_neg (fun e => hc e.symm)]

/-- Witness for C2 at a concrete store: the creator's delete removes the
task, the assignee's delete is Forbidden and leaves the store unchanged. -/
theorem delete_requires_creator_witness :
    deleteTask exStore "t1" "uC" = (.okMsg "Task deleted.", removeTask exStore "t1") ∧
    deleteTask exStore "t1" "uA" = (.forbidden "Only creator can delete.", exStore) :=
  ⟨(((delete_requires_creator exStore "t1" "uC").2 exTask (by decide)).1 (by decide)).1,
   ((delete_requires_creator exStore "t1" "uA").2 exTask (by decide)).2 (by decide)⟩

/-- C3: for a well-formed request body, GET /tasks/:id, PUT /tasks/:id and
POST /tasks/:id/complete are permitted iff the requester's id equals the
task's creator or assignee; any other authenticated requester gets
Forbidden (403); an id that does not resolve gets NotFound (404) regardless
of the requester.  (For the mutating routes, 200 additionally needs the
mongoose save-time document validation to pass, which holds for every
reachable store.) -/
theorem task_access_creator_or_assignee (S : TaskStore) (id uid : String)
    (b : TaskBody) (hval : taskValidationOk b = true) :
    (findTask S id = none →
      getTask S id uid = .notFound "Task not found." ∧
      (updateTask S id uid b).1 = .notFound "Task not found." ∧
      (toggleComplete S id uid).1 = .notFound "Task not found.") ∧
    (∀ t, findTask S id = some t →
      ((t.creator = uid ∨ t.assignedTo = uid) →
        getTask S id uid = .okTask t ∧
        (saveOk (applyAssign t (sanitize b)) = true →
          (updateTask S id uid b).1 = .okTask (applyAssign t (sanitize b))) ∧
        (saveOk { t with status := if t.status = Status.completed
            then Status.todo else Status.completed } = true →
          (toggleComplete S id uid).1.code = 200)) ∧
      (¬(t.creator = uid ∨ t.assignedTo = uid) →
        getTask S id uid = .forbidden "Unauthorized for this task." ∧
        (updateTask S id uid b).1 = .forbidden "Unauthorized for this task." ∧
        (toggleComplete S id uid).1 = .forbidden "Unauthorized.")) := by
  constructor
  · intro h
    exact ⟨by simp [getTask, h], by simp [updateTask, hval, h], by simp [toggleComplete, h]⟩
  · intro t ht
    constructor
    · intro hcan
      refine ⟨by simp [getTask, ht, hcan], fun hs => ?_, fun hs => ?_⟩
      · simp [updateTask, hval, ht, hcan, hs]
      · simp [toggleComplete, ht, hcan, hs, ApiRes.code]
    · intro hcan
      exact ⟨by simp [getTask, ht, hcan], by simp [updateTask, hval, ht, hcan],
        by simp [toggleComplete, ht, hcan]⟩

/-- Witness for C3 at a concrete store: the assignee reads the task, a
stranger is Forbidden on read and update, and a missing id is NotFound. -/
theorem task_access_creator_or_assignee_witness :
    getTask exStore "t1" "uA" = .okTask exTask ∧
    getTask exStore "t1" "uX" = .forbidden "Unauthorized for this task." ∧
    (updateTask exStore "t1" "uX" { title := some "X" }).1 =
      .forbidden "Unauthorized for this task." ∧
    getTask exStore "t9" "uA" = .notFound "Task not found." :=
  ⟨(((task_access_creator_or_assignee exStore "t1" "uA" { title := some "X" }
      (by decide)).2 exTask (by decide)).1 (by decide)).1,
   (((task_access_creator_or_assignee exStore "t1" "uX" { title := some "X" }
      (by decide)).2 exTask (by decide)).2 (by decide)).1,
   ((((task_access_creator_or_assignee exStore "t1" "uX" { title := some "X" }
      (by decide)).2 exTask (by decide)).2 (by decide)).2).1,
   ((task_access_creator_or_assignee exStore "t9" "uA" { title := some "X" }
      (by decide)).1 (by decide)).1⟩

/-- Counterexample to C4 as stated: on a task whose status is `in_progress`,
toggling twice ends at `todo`, not at the original status (the first toggle
goes to `completed`, the second to `todo`). -/
theorem toggle_in_progress_cex :
    taskInProgress.status = Status.in_progress ∧
    (toggleComplete (toggleComplete storeInProgress "t1" "u1").2 "t1" "u1").1 =
      .okTask { taskInProgress with status := Status.todo } ∧
    Status.todo ≠ Status.in_progress := by
  refine ⟨rfl, ?_, by decide⟩
  decide

/-- C4 amended: the completion toggle is an involution on the statuses
`todo` and `completed`: for a task whose status is not `in_progress`,
applying POST /tasks/:id/complete twice returns the status to its original
value (a task in `in_progress` instead ends at `todo`). -/
theorem toggle_involution_on_todo_completed (S : TaskStore) (id uid : String)
    (t : Task) (hfind : findTask S id = some t)
    (hcan : t.creator = uid ∨ t.assignedTo = uid)
    (hsave : saveOk t = true) (hst : t.status ≠ Status.in_progress) :
    ∃ t1 t2 S1 S2, toggleComplete S id uid = (.okTask t1, S1) ∧
      toggleComplete S1 id uid = (.okTask t2, S2) ∧
      t2.status = t.status := by
  set t1 : Task := { t with status := if t.status = Status.completed
    then Status.todo else Status.completed } with ht1
  have hs1 : saveOk t1 = true := hsave
  refine ⟨t1, { t1 with status := if t1.status = Status.completed
      then Status.todo else Status.completed },
    replaceTask S id t1,
    replaceTask (replaceTask S id t1) id
      { t1 with status := if t1.status = Status.completed
        then Status.todo else Status.completed }, ?_, ?_, ?_⟩
  · simp [toggleComplete, hfind, hcan, hs1, ht1]
  · have hfind1 : findTask (replaceTask S id t1) id = some t1 :=
      findTask_replace_self S id t t1 hfind
    have hcan1 : t1.creator = uid ∨ t1.assignedTo = uid := hcan
    have hs2 : saveOk { t1 with status := if t1.status = Status.completed
        then Status.todo else Status.completed } = true := hsave
    simp [toggleComplete, hfind1, hcan1, hs2]
    exact hsave
  · cases h : t.status with
    | todo => simp [ht1, h]
    | in_progress => exact absurd h hst
    | completed => simp [ht1, h]

/-- Witness for C4 (amended) at a concrete store: toggling the `todo` task
twice returns its status to `todo`. -/
theorem toggle_involution_on_todo_completed_witness :
    ∃ t1 t2 S1 S2, toggleComplete exStore "t1" "uC" = (.okTask t1, S1) ∧
      toggleComplete S1 "t1" "uC" = (.okTask t2, S2) ∧
      t2.status = exTask.status :=
  toggle_involution_on_todo_completed exStore "t1" "uC" exTask
    (by decide) (by decide) (by decide) (by decide)

/-- C5 failing input, evaluated: the PUT handler merges the whole request
body into the document with `Object.assign(task, req.body)`, and `creator`
is a Task schema path that the validators neither check nor strip.  A PUT by
the assignee whose body carries `creator` succeeds (200) and overwrites the
task's creator, violating the invariant that no operation ever changes a
task's creator. -/
theorem update_mass_assigns_creator :
    taskTwoParties.creator = "aaaaaaaaaaaaaaaaaaaaaaaa" ∧
    (updateTask storeTwoParties "t1" "aaaaaaaaaaaaaaaaaaaaaaab"
        bodyWithCreator).1 =
      .okTask { taskTwoParties with creator := "cccccccccccccccccccccccc" } ∧
    ("cccccccccccccccccccccccc" : String) ≠ "aaaaaaaaaaaaaaaaaaaaaaaa" := by
  refine ⟨rfl, ?_, by decide⟩
  decide

/-- Counterexample to C6 as stated: the PUT validation chain reuses the
creation validators, in which `title` is required (`notEmpty`, not
`optional`), so a body containing only `priority` is rejected with 400
instead of succeeding with 200. -/
theorem update_without_title_rejected :
    (updateTask exStore "t1" "uC" { priority := some Priority.high }).1 =
      ApiRes.badRequest ∧
    ApiRes.badRequest.code = 400 ∧ (400 : Nat) ≠ 200 := by
  refine ⟨?_, rfl, by decide⟩
  decide

/-- C6 amended: PUT /tasks/:id accepts a partial body provided it contains a
title that is nonempty after trimming (title is required on every update);
for an authorized requester the update then succeeds with 200 and the
merged task, and every field absent from the body keeps its previous
value. -/
theorem update_partial_with_title (S : TaskStore) (id uid : String)
    (t : Task) (b : TaskBody) (hfind : findTask S id = some t)
    (hcan : t.creator = uid ∨ t.assignedTo = uid)
    (hval : taskValidationOk b = true)
    (hsave : saveOk (applyAssign t (sanitize b)) = true) :
    updateTask S id uid b = (.okTask (applyAssign t (sanitize b)),
      replaceTask S id (applyAssign t (sanitize b))) ∧
    (b.description = none →
      (applyAssign t (sanitize b)).description = t.description) ∧
    (b.dueDate = none → (applyAssign t (sanitize b)).dueDate = t.dueDate) ∧
    (b.status = none → (applyAssign t (sanitize b)).status = t.status) ∧
    (b.priority = none → (applyAssign t (sanitize b)).priority = t.priority) ∧
    (b.assignedTo = none →
      (applyAssign t (sanitize b)).assignedTo = t.assignedTo) := by
  refine ⟨by simp [updateTask, hval, hfind, hcan, hsave], ?_, ?_, ?_, ?_, ?_⟩
  all_goals intro h
  all_goals simp [applyAssign, sanitize, h]

/-- Witness for C6 (amended) at a concrete store: a body holding only a
title and a priority succeeds and leaves description, due date, status and
assignee unchanged. -/
theorem update_partial_with_title_witness :
    updateTask exStore "t1" "uC"
        { title := some "New", priority := some Priority.high } =
      (.okTask (applyAssign exTask (sanitize
          { title := some "New", priority := some Priority.high })),
        replaceTask exStore "t1" (applyAssign exTask (sanitize
          { title := some "New", priority := some Priority.high }))) ∧
    (applyAssign exTask (sanitize
        { title := some "New", priority := some Priority.high })).description =
      exTask.description :=
  ⟨(update_partial_with_title exStore "t1" "uC" exTask
      { title := some "New", priority := some Priority.high }
      (by decide) (by decide) (by decide) (by decide)).1,
   (update_partial_with_title exStore "t1" "uC" exTask
      { title := some "New", priority := some Priority.high }
      (by decide) (by decide) (by decide) (by decide)).2.1 rfl⟩

/-- A successful registration appends exactly the new user record, whose
stored email is the trimmed, lowercased request email. -/
theorem register_created_store (lib : String → Bool) (hash : String → String)
    (nid : String) (us : List User) (E P : String) (N : Option String)
    (u : User) (hsucc : (register lib hash nid us E P N).1 = .created u) :
    (register lib hash nid us E P N).2 = us ++ [u] ∧
      u.email = emailKey E := by
  by_cases h1 : validRegistrationB lib E P N = true
  · rcases hfind : findUserByEmail us E with _ | w
    · by_cases h2 : emailOk E = true
      · simp only [register, h1, if_true, hfind, h2] at hsucc ⊢
        obtain rfl : mkUser nid E (hash P) N = u := by
          simpa using hsucc
        exact ⟨rfl, rfl⟩
      · simp [register, h1, hfind, h2] at hsucc
    · simp [register, h1, hfind] at hsucc
  · simp [register, h1] at hsucc

/-- C7: registration is idempotent-rejecting.  After a registration with
email E succeeds, a later POST /auth/register with any character-case
variant of E (same trimmed lowercased form) that passes request validation
fails with the duplicate-email error (400) and appends no user record, so
stored emails stay unique. -/
theorem register_duplicate_rejected (lib lib2 : String → Bool)
    (hash hash2 : String → String) (nid nid2 : String) (us : List User)
    (E P : String) (N : Option String) (u : User)
    (hsucc : (register lib hash nid us E P N).1 = .created u)
    (E2 P2 : String) (N2 : Option String)
    (hcase : emailKey E2 = emailKey E)
    (hval : validRegistrationB lib2 E2 P2 N2 = true) :
    register lib2 hash2 nid2 (register lib hash nid us E P N).2 E2 P2 N2 =
      (.error 400 "Email already registered.",
        (register lib hash nid us E P N).2) := by
  obtain ⟨hS, hem⟩ := register_created_store lib hash nid us E P N u hsucc
  rw [hS]
  have hu2 : u.email = emailKey E2 := by rw [hem, hcase]
  obtain ⟨w, hw⟩ := findUserByEmail_append_mem us u E2 hu2
  simp [register, hval, hw]

/-- Witness for C7: registering `A@B.com` into an empty store and then
registering `a@b.COM` yields the duplicate-email 400 with the store
unchanged. -/
theorem register_duplicate_rejected_witness :
    register (fun _ => true) (fun s => s) "u2"
        ((register (fun _ => true) (fun s => s) "u1" [] "A@B.com" "secret1"
          none).2) "a@b.COM" "secret2" none =
      (.error 400 "Email already registered.",
        (register (fun _ => true) (fun s => s) "u1" [] "A@B.com" "secret1"
          none).2) :=
  register_duplicate_rejected (fun _ => true) (fun _ => true)
    (fun s => s) (fun s => s) "u1" "u2" [] "A@B.com" "secret1" none
    (mkUser "u1" "A@B.com" "secret1" none) (by decide)
    "a@b.COM" "secret2" none (by decide) (by decide)

/-- Counterexample to C8 as stated: for a registered email and the wrong
password `""`, the login validators (`password` `notEmpty`) answer 400, not
Unauthorized (401) — though the response still matches the one an
unregistered email with empty password gets. -/
theorem login_empty_password_cex :
    login (fun _ => true) (fun p h => p == h)
        [{ id := "u1", email := "a@b.com", passwordHash := "hashedpw",
           name := "", role := "user" }] "a@b.com" "" =
      LoginRes.badRequest ∧
    LoginRes.badRequest ≠ .unauthorized "Invalid email or password." := by
  refine ⟨?_, by decide⟩
  decide

/-- C8 amended: for every registered email and every wrong password that
passes request validation (nonempty), POST /auth/login fails with
Unauthorized (401), and the failure response is identical to the one
returned for an email that is not registered at all; an empty password is
instead rejected with 400 for registered and unregistered emails alike, so
no login response reveals whether a given email exists. -/
theorem login_wrong_password_unauthorized (lib : String → Bool)
    (verify : String → String → Bool) (us : List User)
    (E1 P1 E2 P2 : String) (u : User)
    (hv1 : validLoginB lib E1 P1 = true) (hv2 : validLoginB lib E2 P2 = true)
    (h1 : findUserByEmail us E1 = none)
    (h2 : findUserByEmail us E2 = some u)
    (hwrong : verify P2 u.passwordHash = false) :
    login lib verify us E2 P2 = .unauthorized "Invalid email or password." ∧
    login lib verify us E1 P1 = login lib verify us E2 P2 ∧
    (∀ Q1 : String,
      login lib verify us E1 Q1 = .badRequest ↔ validLoginB lib E1 Q1 = false) ∧
    (∀ Q2 : String,
      login lib verify us E2 Q2 = .badRequest ↔ validLoginB lib E2 Q2 = false) := by
  refine ⟨by simp [login, hv2, h2, hwrong], by simp [login, hv1, hv2, h1, h2, hwrong], ?_, ?_⟩
  · intro Q1
    by_cases hq : validLoginB lib E1 Q1 = true
    · simp [login, hq, h1]
    · simp [login, hq, Bool.of_not_eq_true hq]
  · intro Q2
    by_cases hq : validLoginB lib E2 Q2 = true
    · by_cases hv : verify Q2 u.passwordHash = true <;>
        simp [login, hq, h2, hv]
    · simp [login, hq, Bool.of_not_eq_true hq]

/-- Witness for C8 (amended): with one stored user, the wrong nonempty
password and an unknown email produce the same 401 response. -/
theorem login_wrong_password_unauthorized_witness :
    login (fun _ => true) (fun p h => p == h) exUsers "a@b.com" "wrongpw" =
      .unauthorized "Invalid email or password." ∧
    login (fun _ => true) (fun p h => p == h) exUsers "nobody@b.com" "x" =
      login (fun _ => true) (fun p h => p == h) exUsers "a@b.com" "wrongpw" :=
  ⟨(login_wrong_password_unauthorized (fun _ => true) (fun p h => p == h)
      exUsers "nobody@b.com" "x" "a@b.com" "wrongpw" exUser
      (by decide) (by decide) (by decide) (by decide) (by decide)).1,
   (login_wrong_password_unauthorized (fun _ => true) (fun p h => p == h)
      exUsers "nobody@b.com" "x" "a@b.com" "wrongpw" exUser
      (by decide) (by decide) (by decide) (by decide) (by decide)).2.1⟩

/-- The timers registered by a successful POST /tasks whose body has a due
date and whose resolved recipient exists with a nonempty email: one timer
with delay `msUntil = dueDate − now − 24h` when that delay is positive,
none otherwise. -/
theorem createTask_reminders (users : List User) (S : TaskStore) (now : Int)
    (newId uid : String) (b : TaskBody) (d : Int) (u : User)
    (hval : taskValidationOk b = true) (hdue : b.dueDate = some d)
    (hsave : saveOk (buildTask uid (sanitize b)) = true)
    (hrecip : findUserById users
      (recipientId uid (buildTask uid (sanitize b))) = some u)
    (hemail : ¬ u.email = "") :
    (createTask users S now newId uid b).2.2 =
      if 0 < d - now - 24 * 60 * 60 * 1000 then
        [⟨now + (d - now - 24 * 60 * 60 * 1000), u.email,
          buildTask uid (sanitize b)⟩]
      else [] := by
  have hdue' : (buildTask uid (sanitize b)).dueDate = some d := hdue
  simp only [createTask, hval, if_true, hsave, hdue', hrecip, if_neg hemail]

/-- C1: on task creation with a due date (and a resolvable recipient), an
automatic reminder is scheduled iff `dueDate − 24h` is strictly in the
future at creation time; when it is, exactly one deferred one-shot send is
registered, firing at `dueDate − 24h`; when it is not, none is. -/
theorem create_reminder_iff_future (users : List User) (S : TaskStore)
    (now : Int) (newId uid : String) (b : TaskBody) (d : Int) (u : User)
    (hval : taskValidationOk b = true) (hdue : b.dueDate = some d)
    (hsave : saveOk (buildTask uid (sanitize b)) = true)
    (hrecip : findUserById users
      (recipientId uid (buildTask uid (sanitize b))) = some u)
    (hemail : ¬ u.email = "") :
    ((createTask users S now newId uid b).2.2 ≠ [] ↔
      now < d - 24 * 60 * 60 * 1000) ∧
    (now < d - 24 * 60 * 60 * 1000 →
      (createTask users S now newId uid b).2.2 =
        [⟨d - 24 * 60 * 60 * 1000, u.email, buildTask uid (sanitize b)⟩]) := by
  have h := createTask_reminders users S now newId uid b d u
    hval hdue hsave hrecip hemail
  constructor
  · by_cases hc : 0 < d - now - 24 * 60 * 60 * 1000
    · rw [h, if_pos hc]
      constructor
      · intro _
        omega
      · intro _
        simp
    · rw [h, if_neg hc]
      constructor
      · intro hne
        exact absurd rfl hne
      · intro hlt
        omega
  · intro hfut
    have hc : 0 < d - now - 24 * 60 * 60 * 1000 := by omega
    rw [h, if_pos hc]
    have harith : now + (d - now - 24 * 60 * 60 * 1000) =
        d - 24 * 60 * 60 * 1000 := by omega
    rw [harith]

/-- Witness for C1: with a due date 24h+1ms after time 0, exactly one timer
is registered, firing at `dueDate − 24h`. -/
theorem create_reminder_iff_future_witness :
    (0 : Int) < 86400001 - 24 * 60 * 60 * 1000 ∧
    (createTask exUsers [] 0 "t1" "u1" exCreateBody).2.2 =
      [⟨86400001 - 24 * 60 * 60 * 1000, "a@b.com",
        buildTask "u1" (sanitize exCreateBody)⟩] :=
  ⟨by decide,
   (create_reminder_iff_future exUsers [] 0 "t1" "u1" exCreateBody 86400001
      exUser (by decide) rfl (by decide) (by decide) (by decide)).2 (by decide)⟩

/-- C9: when the automatic reminder fires, exactly one email send is
attempted, addressed to the resolved recipient's email — the assignee's,
which is the creator's when no assignee was specified, since `assignedTo`
defaults to the creator at creation — with subject `"Task Due Soon: " ++
title` and a body containing the formatted due date and the description; a
transport failure is not retried and the task store is unchanged either
way. -/
theorem reminder_email_content (fmt : Int → String) (fromAddr : String)
    (users : List User) (S : TaskStore) (now : Int) (newId uid : String)
    (b : TaskBody) (d : Int) (u : User)
    (hval : taskValidationOk b = true) (hdue : b.dueDate = some d)
    (hsave : saveOk (buildTask uid (sanitize b)) = true)
    (hrecip : findUserById users
      (recipientId uid (buildTask uid (sanitize b))) = some u)
    (hemail : ¬ u.email = "")
    (hfut : now < d - 24 * 60 * 60 * 1000) :
    ∃ r : Reminder, (createTask users S now newId uid b).2.2 = [r] ∧
      r.email = u.email ∧ r.task = buildTask uid (sanitize b) ∧
      (b.assignedTo = none →
        recipientId uid (buildTask uid (sanitize b)) = uid) ∧
      (∀ (S2 : TaskStore) (sendOk : Bool),
        fireReminder fmt fromAddr S2 r sendOk =
          (S2, [(sendDueDateEmail fmt fromAddr r.email r.task, sendOk)])) ∧
      (sendDueDateEmail fmt fromAddr r.email r.task).toAddr = u.email ∧
      (sendDueDateEmail fmt fromAddr r.email r.task).subject =
        "Task Due Soon: " ++ r.task.title ∧
      (∃ x y z, (sendDueDateEmail fmt fromAddr r.email r.task).text =
        x ++ fmt d ++ y ++ (r.task.description.getD "") ++ z) := by
  have h := createTask_reminders users S now newId uid b d u
    hval hdue hsave hrecip hemail
  have hc : 0 < d - now - 24 * 60 * 60 * 1000 := by omega
  refine ⟨⟨now + (d - now - 24 * 60 * 60 * 1000), u.email,
      buildTask uid (sanitize b)⟩,
    by rw [h, if_pos hc], rfl, rfl, fun hna => ?_,
    fun S2 sendOk => rfl, rfl, rfl, ?_⟩
  · unfold recipientId buildTask sanitize
    simp [hna]
  · have hdue' : (buildTask uid (sanitize b)).dueDate = some d := hdue
    refine ⟨"Your task \"" ++ (buildTask uid (sanitize b)).title ++
      "\" is due on ", ".\n\nDescription: ",
      "\n\nPlease complete it in Task Tracker.", ?_⟩
    simp only [sendDueDateEmail, hdue']

/-- Witness for C9: creating a task with an explicit assignee distinct from
the creator and firing its reminder attempts exactly one send to the
assignee's email with the documented subject and body shape. -/
theorem reminder_email_content_witness :
    ∃ r : Reminder,
      (createTask exUsersTwo [] 0 "t1" "u1" exCreateBodyAssigned).2.2 = [r] ∧
      r.email = exAssignee.email ∧
      r.task = buildTask "u1" (sanitize exCreateBodyAssigned) ∧
      (exCreateBodyAssigned.assignedTo = none →
        recipientId "u1" (buildTask "u1" (sanitize exCreateBodyAssigned)) =
          "u1") ∧
      (∀ (S2 : TaskStore) (sendOk : Bool),
        fireReminder (fun i => toString i) "tasks@tt.com" S2 r sendOk =
          (S2, [(sendDueDateEmail (fun i => toString i) "tasks@tt.com"
            r.email r.task, sendOk)])) ∧
      (sendDueDateEmail (fun i => toString i) "tasks@tt.com"
        r.email r.task).toAddr = exAssignee.email ∧
      (sendDueDateEmail (fun i => toString i) "tasks@tt.com"
        r.email r.task).subject = "Task Due Soon: " ++ r.task.title ∧
      (∃ x y z, (sendDueDateEmail (fun i => toString i) "tasks@tt.com"
        r.email r.task).text =
          x ++ (fun i => toString i) 86400001 ++ y ++
            (r.task.description.getD "") ++ z) :=
  reminder_email_content (fun i => toString i) "tasks@tt.com" exUsersTwo [] 0
    "t1" "u1" exCreateBodyAssigned 86400001 exAssignee
    (by decide) rfl (by decide) (by decide) (by decide) (by decide)

end TaskTracker
